import Mathlib

/-!
Verification of the AgroAI vegetation-index (NDVI) acquisition pipeline.

The definitions below are shallow embeddings of the Python source:
  - modules/sentinel_ndvi.py   (primary Sentinel Hub provider, OAuth session)
  - modules/crop_analyzer.py   (orchestrator, inline Sentinel copy, Planetary
                                Computer secondary provider)
  - main.py                    (coordinate resolution)
  - modules/fields_manager.py  (alternate polygon parser)
Floats are modelled as rationals; NDVI threshold constants 0.6 / 0.4 / 0.2 are
written 3/5, 2/5, 1/5.
-/

/-- Status classification values returned by the providers (the source uses
the strings excellent / good / medium / bad). -/
inductive NdviStatus
| excellent
| good
| medium
| bad
deriving DecidableEq, Repr

/-- Embedding of SentinelNDVI._interpret_ndvi (sentinel_ndvi.py lines 370-377,
identically crop_analyzer.py lines 265-274): threshold rule with inclusive
lower bounds. -/
def interpret_ndvi (v : ℚ) : NdviStatus :=
  if v ≥ 3/5 then .excellent
  else if v ≥ 2/5 then .good
  else if v ≥ 1/5 then .medium
  else .bad

/-- Embedding of the inline classification of the secondary (Planetary
Computer) tier, crop_analyzer.py lines 652-664: the same thresholds but with
STRICT comparisons. -/
def interpret_ndvi_secondary (v : ℚ) : NdviStatus :=
  if v > 3/5 then .excellent
  else if v > 2/5 then .good
  else if v > 1/5 then .medium
  else .bad

/-- C1 counterexample: at the boundary value 0.6 the secondary tier
classifies DOWNWARD, producing good, not excellent as the claim requires
of every tier. -/
theorem c1_counterexample :
    interpret_ndvi_secondary (3/5) = NdviStatus.good ∧
    NdviStatus.good ≠ NdviStatus.excellent := by
  constructor
  · norm_num [interpret_ndvi_secondary]
  · decide

/-- Claim C1 (amended): the primary tier classifies with inclusive thresholds
(boundary values 0.6, 0.4, 0.2 classify upward), while the secondary tier
uses strict thresholds, so there the boundary values classify downward
(0.6 is good, 0.4 is medium, 0.2 is bad); away from the boundaries both
tiers agree, in particular 0.65 is excellent, 0.35 is medium and 0.10 is
bad in both tiers. -/
theorem c1_amended :
    (∀ v : ℚ,
      (interpret_ndvi v = .excellent ↔ 3/5 ≤ v) ∧
      (interpret_ndvi v = .good ↔ 2/5 ≤ v ∧ v < 3/5) ∧
      (interpret_ndvi v = .medium ↔ 1/5 ≤ v ∧ v < 2/5) ∧
      (interpret_ndvi v = .bad ↔ v < 1/5)) ∧
    (∀ v : ℚ,
      (interpret_ndvi_secondary v = .excellent ↔ 3/5 < v) ∧
      (interpret_ndvi_secondary v = .good ↔ 2/5 < v ∧ v ≤ 3/5) ∧
      (interpret_ndvi_secondary v = .medium ↔ 1/5 < v ∧ v ≤ 2/5) ∧
      (interpret_ndvi_secondary v = .bad ↔ v ≤ 1/5)) ∧
    interpret_ndvi_secondary (3/5) = .good ∧
    interpret_ndvi_secondary (2/5) = .medium ∧
    interpret_ndvi_secondary (1/5) = .bad ∧
    interpret_ndvi (3/5) = .excellent ∧
    interpret_ndvi (2/5) = .good ∧
    interpret_ndvi (1/5) = .medium ∧
    interpret_ndvi (13/20) = .excellent ∧
    interpret_ndvi_secondary (13/20) = .excellent ∧
    interpret_ndvi (7/20) = .medium ∧
    interpret_ndvi_secondary (7/20) = .medium ∧
    interpret_ndvi (1/10) = .bad ∧
    interpret_ndvi_secondary (1/10) = .bad := by
  refine ⟨fun v => ?_, fun v => ?_, ?_⟩
  · unfold interpret_ndvi
    split_ifs with h1 h2 h3 <;>
      refine ⟨?_, ?_, ?_, ?_⟩ <;> simp_all <;> (intros; linarith)
  · unfold interpret_ndvi_secondary
    split_ifs with h1 h2 h3 <;>
      refine ⟨?_, ?_, ?_, ?_⟩ <;> simp_all <;> (intros; linarith)
  · norm_num [interpret_ndvi, interpret_ndvi_secondary]

/-- Bounding box as assembled in main.py: [min(lons), min(lats), max(lons), max(lats)]. -/
structure GeomBox where
  minLon : ℚ
  minLat : ℚ
  maxLon : ℚ
  maxLat : ℚ
deriving DecidableEq, Repr

/-- Outcome of coordinate resolution: a ValueError (surfaced to the user as
invalid coordinates) or a center plus optional bounding box. -/
inductive GeomResult
| invalid
| ok (lat lon : ℚ) (box : Option GeomBox)
deriving DecidableEq, Repr

/-- Elements at even positions, matching the Python slice coords[0::2]. -/
def evens : List ℚ → List ℚ
| [] => []
| [x] => [x]
| x :: _ :: rest => x :: evens rest

/-- Elements at odd positions, matching the Python slice coords[1::2]. -/
def odds : List ℚ → List ℚ
| [] => []
| [_] => []
| _ :: y :: rest => y :: odds rest

/-- Minimum of a list, matching the Python builtin min on a nonempty list. -/
def listMinQ : List ℚ → ℚ
| [] => 0
| x :: xs => xs.foldl min x

/-- Maximum of a list, matching the Python builtin max on a nonempty list. -/
def listMaxQ : List ℚ → ℚ
| [] => 0
| x :: xs => xs.foldl max x

/-- Arithmetic mean sum(l)/len(l). -/
def listMeanQ (l : List ℚ) : ℚ := l.sum / l.length

/-- Range validation from main.py line 375, applied to the derived center
only. -/
def validateCenter (lat lon : ℚ) (box : Option GeomBox) : GeomResult :=
  if -90 ≤ lat ∧ lat ≤ 90 ∧ -180 ≤ lon ∧ lon ≤ 180 then .ok lat lon box
  else .invalid

/-- Embedding of AgroAIBot.process_ndvi_coordinates (main.py lines 339-376),
taking the already-parsed list of numbers: 2 numbers is a point, 4 numbers a
box given as lat1 lon1 lat2 lon2, an even count of at least 6 a polygon with
alternating lat/lon; the derived center is then range-validated. -/
def process_ndvi_coordinates : List ℚ → GeomResult
| [lat, lon] => validateCenter lat lon none
| [a, b, c, d] =>
    validateCenter ((a + c) / 2) ((b + d) / 2)
      (some ⟨min b d, min a c, max b d, max a c⟩)
| cs =>
    if 6 ≤ cs.length ∧ cs.length % 2 = 0 then
      validateCenter (listMeanQ (evens cs)) (listMeanQ (odds cs))
        (some ⟨listMinQ (odds cs), listMinQ (evens cs),
               listMaxQ (odds cs), listMaxQ (evens cs)⟩)
    else .invalid

theorem validateCenter_invalid_iff (lat lon : ℚ) (box : Option GeomBox) :
    validateCenter lat lon box = .invalid ↔
      ¬ (-90 ≤ lat ∧ lat ≤ 90 ∧ -180 ≤ lon ∧ lon ≤ 180) := by
  unfold validateCenter
  split_ifs with h <;> simp [h]

/-- C3 counterexample: the four-number input 89 0 91 0 contains the
latitude 91, outside [-90, 90], yet resolution does not fail: only the
derived center (latitude 90) is validated, and the provider is queried. -/
theorem c3_counterexample :
    process_ndvi_coordinates [89, 0, 91, 0] =
      GeomResult.ok 90 0 (some ⟨0, 89, 0, 91⟩) ∧
    ¬ ((91 : ℚ) ≤ 90) := by
  constructor
  · norm_num [process_ndvi_coordinates, validateCenter]
  · norm_num

/-- Claim C3 (amended): resolution validates only the derived center
coordinate. A 2-number point is rejected exactly when the point itself is out
of range; a 4-number box or a polygon is rejected exactly when the mean of
its latitudes or of its longitudes is out of range, so an input with an
individual coordinate outside the valid range is accepted whenever its
center is in range; any other count fails. -/
theorem c3_amended :
    (∀ lat lon : ℚ,
      process_ndvi_coordinates [lat, lon] = .invalid ↔
        ¬ (-90 ≤ lat ∧ lat ≤ 90 ∧ -180 ≤ lon ∧ lon ≤ 180)) ∧
    (∀ a b c d : ℚ,
      process_ndvi_coordinates [a, b, c, d] = .invalid ↔
        ¬ (-90 ≤ (a + c) / 2 ∧ (a + c) / 2 ≤ 90 ∧
           -180 ≤ (b + d) / 2 ∧ (b + d) / 2 ≤ 180)) ∧
    (∀ cs : List ℚ, 6 ≤ cs.length → cs.length % 2 = 0 →
      (process_ndvi_coordinates cs = .invalid ↔
        ¬ (-90 ≤ listMeanQ (evens cs) ∧ listMeanQ (evens cs) ≤ 90 ∧
           -180 ≤ listMeanQ (odds cs) ∧ listMeanQ (odds cs) ≤ 180))) ∧
    (∀ cs : List ℚ,
      ¬ (cs.length = 2 ∨ cs.length = 4 ∨ (6 ≤ cs.length ∧ cs.length % 2 = 0)) →
      process_ndvi_coordinates cs = .invalid) := by
  refine ⟨?_, ?_, ?_, ?_⟩
  · intro lat lon
    simpa [process_ndvi_coordinates] using
      validateCenter_invalid_iff lat lon none
  · intro a b c d
    simpa [process_ndvi_coordinates] using
      validateCenter_invalid_iff ((a + c) / 2) ((b + d) / 2) _
  · intro cs h6 heven
    rcases cs with _ | ⟨a, _ | ⟨b, _ | ⟨c, _ | ⟨d, _ | ⟨e, _ | ⟨f, rest⟩⟩⟩⟩⟩⟩ <;>
      simp only [List.length] at h6 <;> try omega
    rw [process_ndvi_coordinates]
    · rw [if_pos]
      · exact validateCenter_invalid_iff _ _ _
      · exact ⟨by simp only [List.length]; omega, heven⟩
    · intro _ _ h
      simp at h
    · intro _ _ _ _ h
      simp at h
  · intro cs hbad
    rcases cs with _ | ⟨a, _ | ⟨b, _ | ⟨c, _ | ⟨d, _ | ⟨e, _ | ⟨f, rest⟩⟩⟩⟩⟩⟩
    · rw [process_ndvi_coordinates, if_neg] <;> simp
    · rw [process_ndvi_coordinates, if_neg] <;> simp
    · exact absurd (Or.inl rfl) hbad
    · rw [process_ndvi_coordinates, if_neg] <;> simp
    · exact absurd (Or.inr (Or.inl rfl)) hbad
    · rw [process_ndvi_coordinates, if_neg]
      · simp only [List.length]
        omega
      · intro _ _ h
        simp at h
      · intro _ _ _ _ h
        simp at h
    · rw [process_ndvi_coordinates, if_neg]
      · intro hc
        exact hbad (Or.inr (Or.inr hc))
      · intro _ _ h
        simp at h
      · intro _ _ _ _ h
        simp at h

/-- Clipping to an interval, matching np.clip. -/
def clipQ (lo hi x : ℚ) : ℚ := max lo (min x hi)

/-- Embedding of the per-pixel index of the secondary (Planetary Computer)
provider, crop_analyzer.py lines 640-642:
ndvi = (nir - red) / (nir + red + 1e-6), then np.clip(ndvi, -1, 1). -/
def ndvi_pixel (nir red : ℚ) : ℚ :=
  clipQ (-1) 1 ((nir - red) / (nir + red + 1/1000000))

/-- Validity filter of crop_analyzer.py line 645: (ndvi > -0.5) & (ndvi < 1.0). -/
def valid_pixel (v : ℚ) : Bool := decide (-1/2 < v) && decide (v < 1)

/-- The list of index values of a raster of (nir, red) pixels that pass the
validity filter; the source computes all further statistics on
ndvi[valid_mask]. -/
def valid_ndvi (raster : List (ℚ × ℚ)) : List ℚ :=
  ((raster.map fun p => ndvi_pixel p.1 p.2).filter fun v => valid_pixel v)

/-- Statistics reported by the secondary provider (crop_analyzer.py lines
672-680). The source reports std; std is the square root of var, so it is
determined by var, which stays rational. -/
structure NdviStats where
  mean : ℚ
  min : ℚ
  max : ℚ
  var : ℚ
deriving DecidableEq, Repr

/-- Population variance, matching np.std squared. -/
def listVarQ (l : List ℚ) : ℚ :=
  ((l.map fun x => (x - listMeanQ l) ^ 2).sum) / l.length

def stats_of (l : List ℚ) : NdviStats :=
  ⟨listMeanQ l, listMinQ l, listMaxQ l, listVarQ l⟩

/-- Embedding of the per-scene loop of crop_analyzer.py lines 597-684: a
scene whose band download or decode fails (modelled as none) is skipped; a
decoded raster is skipped when valid_mask.sum() == 0; otherwise its
statistics over the valid pixels are returned. -/
def try_scenes : List (Option (List (ℚ × ℚ))) → Option NdviStats
| [] => none
| none :: rest => try_scenes rest
| some raster :: rest =>
    if (valid_ndvi raster).length = 0 then try_scenes rest
    else some (stats_of (valid_ndvi raster))

/-- The secondary provider tries at most the first three candidate scenes
(items[:3], crop_analyzer.py line 597). -/
def planetary_ndvi (items : List (Option (List (ℚ × ℚ)))) : Option NdviStats :=
  try_scenes (items.take 3)

theorem filter_replicate_of_pos {f : ℚ → Bool} {a : ℚ} (h : f a = true)
    (n : ℕ) : (List.replicate n a).filter f = List.replicate n a := by
  induction n with
  | zero => rfl
  | succ n ih => simp [List.replicate_succ, List.filter_cons, h, ih]

theorem valid_ndvi_replicate (n : ℕ) (nir red : ℚ)
    (h : valid_pixel (ndvi_pixel nir red) = true) :
    valid_ndvi (List.replicate n (nir, red)) =
      List.replicate n (ndvi_pixel nir red) := by
  simp only [valid_ndvi, List.map_replicate]
  exact filter_replicate_of_pos h n

theorem listMeanQ_replicate (n : ℕ) (hn : n ≠ 0) (a : ℚ) :
    listMeanQ (List.replicate n a) = a := by
  unfold listMeanQ
  rw [List.sum_replicate, List.length_replicate, nsmul_eq_mul,
    mul_div_cancel_left₀]
  exact Nat.cast_ne_zero.mpr hn

theorem ndvi_pixel_31 : ndvi_pixel 3 1 = 2000000 / 4000001 := by
  rw [ndvi_pixel, clipQ]
  norm_num [min_def, max_def]

theorem ndvi_pixel_91 : ndvi_pixel 9 1 = 8000000 / 10000001 := by
  rw [ndvi_pixel, clipQ]
  norm_num [min_def, max_def]

theorem ndvi_pixel_03 : ndvi_pixel 0 3 = -3000000 / 3000001 := by
  rw [ndvi_pixel, clipQ]
  norm_num [min_def, max_def]

theorem valid_pixel_q1 : valid_pixel (2000000 / 4000001) = true := by
  simp only [valid_pixel, Bool.and_eq_true, decide_eq_true_eq]
  constructor <;> norm_num

theorem valid_pixel_q2 : valid_pixel (8000000 / 10000001) = true := by
  simp only [valid_pixel, Bool.and_eq_true, decide_eq_true_eq]
  constructor <;> norm_num

theorem valid_pixel_m3 : valid_pixel (-3000000 / 3000001) = false := by
  have h : ¬ ((-1 : ℚ) / 2 < -3000000 / 3000001) := by norm_num
  unfold valid_pixel
  rw [decide_eq_false h, Bool.false_and]

/-- C4 counterexample: the first candidate scene yields 50 valid pixels,
fewer than the 100 of the claim, and the second yields 400, yet the provider
returns the statistics of the FIRST scene: the discard threshold in the code
is zero valid pixels, not about 100. -/
theorem c4_counterexample :
    planetary_ndvi
        [some (List.replicate 50 ((3 : ℚ), 1)),
         some (List.replicate 400 ((9 : ℚ), 1))] =
      some (stats_of (valid_ndvi (List.replicate 50 ((3 : ℚ), 1)))) ∧
    (valid_ndvi (List.replicate 50 ((3 : ℚ), 1))).length = 50 ∧
    (50 : ℕ) < 100 ∧
    (valid_ndvi (List.replicate 400 ((9 : ℚ), 1))).length = 400 ∧
    stats_of (valid_ndvi (List.replicate 50 ((3 : ℚ), 1))) ≠
      stats_of (valid_ndvi (List.replicate 400 ((9 : ℚ), 1))) := by
  have hv1 : valid_pixel (ndvi_pixel 3 1) = true := by
    rw [ndvi_pixel_31]; exact valid_pixel_q1
  have hv2 : valid_pixel (ndvi_pixel 9 1) = true := by
    rw [ndvi_pixel_91]; exact valid_pixel_q2
  have V1 : valid_ndvi (List.replicate 50 ((3 : ℚ), 1)) =
      List.replicate 50 (ndvi_pixel 3 1) := valid_ndvi_replicate 50 3 1 hv1
  have V2 : valid_ndvi (List.replicate 400 ((9 : ℚ), 1)) =
      List.replicate 400 (ndvi_pixel 9 1) := valid_ndvi_replicate 400 9 1 hv2
  have L1 : (valid_ndvi (List.replicate 50 ((3 : ℚ), 1))).length = 50 := by
    rw [V1, List.length_replicate]
  have L2 : (valid_ndvi (List.replicate 400 ((9 : ℚ), 1))).length = 400 := by
    rw [V2, List.length_replicate]
  refine ⟨?_, L1, by decide, L2, ?_⟩
  · have hne : (valid_ndvi (List.replicate 50 ((3 : ℚ), 1))).length ≠ 0 := by
      rw [L1]; decide
    simp only [planetary_ndvi, List.take, try_scenes]
    rw [if_neg hne]
  · intro h
    have hm := congrArg NdviStats.mean h
    rw [V1, V2] at hm
    simp only [stats_of] at hm
    rw [listMeanQ_replicate 50 (by decide), listMeanQ_replicate 400 (by decide),
      ndvi_pixel_31, ndvi_pixel_91] at hm
    norm_num at hm

/-- Claim C4 (amended): a candidate scene is discarded and the next one tried
exactly when its download or decoding fails or when no pixel at all passes
the validity filter; a scene with at least one valid pixel is used even when
its valid-pixel count is below 100. In particular, if the first candidate
yields zero valid pixels and the second yields a nonempty valid set, the
statistics of the second scene are returned. -/
theorem c4_amended (r1 r2 : List (ℚ × ℚ)) :
    (valid_ndvi r1 = [] →
      planetary_ndvi [some r1, some r2] =
        (if valid_ndvi r2 = [] then none
         else some (stats_of (valid_ndvi r2)))) ∧
    (valid_ndvi r1 ≠ [] →
      planetary_ndvi [some r1, some r2] = some (stats_of (valid_ndvi r1))) ∧
    (∀ rest, try_scenes (none :: rest) = try_scenes rest) := by
  refine ⟨?_, ?_, fun rest => rfl⟩
  · intro h1
    simp [planetary_ndvi, try_scenes, List.length_eq_zero, h1]
  · intro h1
    simp [planetary_ndvi, try_scenes, List.length_eq_zero, h1]

/-- C4 witness: concrete instance of the amended claim, with a first scene
whose single pixel fails the validity filter and a second scene with one
valid pixel. -/
theorem c4_witness :
    planetary_ndvi [some [((0 : ℚ), 3)], some [((3 : ℚ), 1)]] =
      some (stats_of (valid_ndvi [((3 : ℚ), 1)])) := by
  have hva : valid_pixel (ndvi_pixel 0 3) = false := by
    rw [ndvi_pixel_03]; exact valid_pixel_m3
  have hvb : valid_pixel (ndvi_pixel 3 1) = true := by
    rw [ndvi_pixel_31]; exact valid_pixel_q1
  have h1 : valid_ndvi [((0 : ℚ), 3)] = [] := by
    simp [valid_ndvi, hva]
  have h2 : valid_ndvi [((3 : ℚ), 1)] ≠ [] := by
    simp [valid_ndvi, hvb]
  have h := (c4_amended [((0 : ℚ), 3)] [((3 : ℚ), 1)]).1 h1
  rw [h, if_neg h2]

theorem ndvi_pixel_00 : ndvi_pixel 0 0 = 0 := by
  rw [ndvi_pixel, clipQ]
  norm_num [min_def, max_def]

/-- C5 counterexample: at the concrete pixel nir 100, red 0 the index the
code computes, (nir - red) / (nir + red + 1e-6) clipped, differs from
(nir - red) / (nir + red); and the zero-divisor pixel nir 0, red 0 is not
excluded from the computation: it yields index 0 and passes the validity
filter, contributing to the reported statistics. -/
theorem c5_counterexample :
    ndvi_pixel 100 0 ≠ ((100 : ℚ) - 0) / (100 + 0) ∧
    ndvi_pixel 0 0 = 0 ∧
    valid_pixel (ndvi_pixel 0 0) = true := by
  refine ⟨?_, ndvi_pixel_00, ?_⟩
  · rw [ndvi_pixel, clipQ]
    norm_num [min_def, max_def]
  · rw [ndvi_pixel_00]
    simp only [valid_pixel, Bool.and_eq_true, decide_eq_true_eq]
    constructor <;> norm_num

/-- Claim C5 (amended): the per-pixel index is
(nir - red) / (nir + red + 1e-6) clipped to [-1, 1], not the exact ratio
(nir - red) / (nir + red); the divisor-zero pixel is not excluded: it yields
index 0, which passes the validity filter. The second half of the claim
stands: statistics are computed only over pixels passing the filter, so a
pixel failing the filter contributes to no reported statistic. -/
theorem c5_amended :
    (∀ (raster : List (ℚ × ℚ)) (nir red : ℚ),
      valid_pixel (ndvi_pixel nir red) = false →
      valid_ndvi (raster ++ [(nir, red)]) = valid_ndvi raster ∧
      stats_of (valid_ndvi (raster ++ [(nir, red)])) =
        stats_of (valid_ndvi raster)) ∧
    ndvi_pixel 0 0 = 0 ∧
    valid_pixel (ndvi_pixel 0 0) = true := by
  refine ⟨?_, ndvi_pixel_00, ?_⟩
  · intro raster nir red h
    have hv : valid_ndvi (raster ++ [(nir, red)]) = valid_ndvi raster := by
      simp [valid_ndvi, List.map_append, List.filter_append, List.filter_cons, h]
    exact ⟨hv, by rw [hv]⟩
  · rw [ndvi_pixel_00]
    simp only [valid_pixel, Bool.and_eq_true, decide_eq_true_eq]
    constructor <;> norm_num

/-- C5 witness: appending the invalid pixel nir 0, red 3 to a one-pixel
raster leaves every reported statistic unchanged. -/
theorem c5_witness :
    stats_of (valid_ndvi ([((3 : ℚ), 1)] ++ [((0 : ℚ), 3)])) =
      stats_of (valid_ndvi [((3 : ℚ), 1)]) := by
  have hva : valid_pixel (ndvi_pixel 0 3) = false := by
    rw [ndvi_pixel_03]; exact valid_pixel_m3
  exact (c5_amended.1 [((3 : ℚ), 1)] 0 3 hva).2

/-- Fields of a statistics-API response entry as read by
SentinelNDVI._get_statistics (crop_analyzer.py lines 246-254); each field
may be absent from the response. -/
structure StatsResponse where
  mean : Option ℚ
  min : Option ℚ
  max : Option ℚ
  stDev : Option ℚ
deriving DecidableEq, Repr

/-- Statistics record assembled by _get_statistics. -/
structure SHStats where
  mean : ℚ
  min : ℚ
  max : ℚ
  stdev : ℚ
deriving DecidableEq, Repr

/-- Embedding of the response assembly of SentinelNDVI._get_statistics
(crop_analyzer.py lines 246-254): mean must be present or the call yields
None; an absent min defaults to 0, an absent max to 1, an absent stDev to 0;
no check relates the assembled mean, min and max. -/
def get_statistics (r : StatsResponse) : Option SHStats :=
  match r.mean with
  | none => none
  | some m => some ⟨m, r.min.getD 0, r.max.getD 1, r.stDev.getD 0⟩

/-- C8 counterexample: a statistics-API response reporting mean -0.2 (a
legitimate NDVI value, for instance over water) with min and max absent is
assembled with the defaults min 0 and max 1, so the result violates
min <= value. -/
theorem c8_counterexample :
    get_statistics ⟨some (-1/5), none, none, none⟩ =
      some ⟨-1/5, 0, 1, 0⟩ ∧
    ¬ ((0 : ℚ) ≤ -1/5) := by
  constructor
  · rfl
  · norm_num

theorem foldl_min_le_init (xs : List ℚ) (a : ℚ) : xs.foldl min a ≤ a := by
  induction xs generalizing a with
  | nil => exact le_refl a
  | cons x xs ih => exact le_trans (ih (min a x)) (min_le_left a x)

theorem foldl_min_le_mem (xs : List ℚ) (a y : ℚ) (hy : y ∈ xs) :
    xs.foldl min a ≤ y := by
  induction xs generalizing a with
  | nil => cases hy
  | cons x xs ih =>
    rcases List.mem_cons.mp hy with rfl | hmem
    · exact le_trans (foldl_min_le_init xs (min a y)) (min_le_right a y)
    · exact ih (min a x) hmem

theorem listMinQ_le_mem (l : List ℚ) (y : ℚ) (hy : y ∈ l) : listMinQ l ≤ y := by
  cases l with
  | nil => cases hy
  | cons x xs =>
    rcases List.mem_cons.mp hy with rfl | hmem
    · exact foldl_min_le_init xs y
    · exact foldl_min_le_mem xs x y hmem

theorem init_le_foldl_max (xs : List ℚ) (a : ℚ) : a ≤ xs.foldl max a := by
  induction xs generalizing a with
  | nil => exact le_refl a
  | cons x xs ih => exact le_trans (le_max_left a x) (ih (max a x))

theorem mem_le_foldl_max (xs : List ℚ) (a y : ℚ) (hy : y ∈ xs) :
    y ≤ xs.foldl max a := by
  induction xs generalizing a with
  | nil => cases hy
  | cons x xs ih =>
    rcases List.mem_cons.mp hy with rfl | hmem
    · exact le_trans (le_max_right a y) (init_le_foldl_max xs (max a y))
    · exact ih (max a x) hmem

theorem mem_le_listMaxQ (l : List ℚ) (y : ℚ) (hy : y ∈ l) : y ≤ listMaxQ l := by
  cases l with
  | nil => cases hy
  | cons x xs =>
    rcases List.mem_cons.mp hy with rfl | hmem
    · exact init_le_foldl_max xs y
    · exact mem_le_foldl_max xs x y hmem

theorem listMinQ_le_mean (l : List ℚ) (hl : l ≠ []) :
    listMinQ l ≤ listMeanQ l := by
  have hpos : (0 : ℚ) < l.length := by
    exact_mod_cast List.length_pos.mpr hl
  have hsum : (l.length : ℚ) * listMinQ l ≤ l.sum := by
    have h := List.card_nsmul_le_sum l (listMinQ l)
      (fun x hx => listMinQ_le_mem l x hx)
    rwa [nsmul_eq_mul] at h
  rw [listMeanQ, le_div_iff₀ hpos, mul_comm]
  exact hsum

theorem listMeanQ_le_max (l : List ℚ) (hl : l ≠ []) :
    listMeanQ l ≤ listMaxQ l := by
  have hpos : (0 : ℚ) < l.length := by
    exact_mod_cast List.length_pos.mpr hl
  have hsum : l.sum ≤ (l.length : ℚ) * listMaxQ l := by
    have h := List.sum_le_card_nsmul l (listMaxQ l)
      (fun x hx => mem_le_listMaxQ l x hx)
    rwa [nsmul_eq_mul] at h
  rw [listMeanQ, div_le_iff₀ hpos, mul_comm]
  exact hsum

/-- Claim C8 (amended): the min <= value <= max invariant holds for the
statistics the secondary tier computes from a nonempty set of valid pixels,
since there min, mean and max come from the same list; a statistics-API
result copies min and max from the response unchecked, absent fields
defaulting to min 0 and max 1, so with min and max absent the invariant
holds exactly when the reported mean lies in [0, 1]. -/
theorem c8_amended :
    (∀ l : List ℚ, l ≠ [] →
      (stats_of l).min ≤ (stats_of l).mean ∧
      (stats_of l).mean ≤ (stats_of l).max) ∧
    (∀ m : ℚ, ∃ s, get_statistics ⟨some m, none, none, none⟩ = some s ∧
      ((s.min ≤ s.mean ∧ s.mean ≤ s.max) ↔ (0 ≤ m ∧ m ≤ 1))) := by
  constructor
  · intro l hl
    exact ⟨listMinQ_le_mean l hl, listMeanQ_le_max l hl⟩
  · intro m
    exact ⟨⟨m, 0, 1, 0⟩, rfl, Iff.rfl⟩

/-- C8 witness: the secondary-tier invariant at the concrete valid-pixel
list containing 1 and 3. -/
theorem c8_witness :
    (stats_of [(1 : ℚ), 3]).min ≤ (stats_of [(1 : ℚ), 3]).mean ∧
    (stats_of [(1 : ℚ), 3]).mean ≤ (stats_of [(1 : ℚ), 3]).max :=
  c8_amended.1 [(1 : ℚ), 3] (List.cons_ne_nil 1 [3])

/-- One run of SentinelNDVI.get_ndvi (sentinel_ndvi.py lines 67-179) in the
environment where every statistics query reports no scenes (HTTP 400). The
first component lists the window length of each query issued, which is
min(days, _max_days) with _max_days = 90 (line 84); the second component is
the success flag of the returned dict, always false in this environment.
On no data the source retries with days doubled and capped at 90 (lines
146-151), stopping when the doubling is a no-op; the structural counter is
the number of attempts still allowed: the source counts attempt upward from
1 and returns a failure once attempt exceeds _max_attempts = 4 (lines
72-73), so the counter equals 4 + 1 - attempt and starts at 4. -/
def get_ndvi_no_data : ℤ → ℕ → List ℤ × Bool
| _, 0 => ([], false)
| days, n + 1 =>
    let w := min days 90
    let newDays := min (days * 2) 90
    if newDays = days then ([w], false)
    else
      let rest := get_ndvi_no_data newDays n
      (w :: rest.1, rest.2)

/-- A full run starting at attempt 1. -/
def get_ndvi_run (days : ℤ) : List ℤ × Bool := get_ndvi_no_data days 4

theorem get_ndvi_no_data_bounds (n : ℕ) :
    ∀ days : ℤ, (get_ndvi_no_data days n).2 = false ∧
      (get_ndvi_no_data days n).1.length ≤ n ∧
      ∀ w ∈ (get_ndvi_no_data days n).1, w ≤ 90 := by
  induction n with
  | zero =>
    intro days
    refine ⟨rfl, by simp [get_ndvi_no_data], by simp [get_ndvi_no_data]⟩
  | succ n ih =>
    intro days
    rw [get_ndvi_no_data]
    split_ifs with h
    · refine ⟨rfl, by simp, ?_⟩
      intro w hw
      rw [List.mem_singleton] at hw
      subst hw
      exact min_le_right days 90
    · refine ⟨(ih _).1, ?_, ?_⟩
      · have := (ih (min (days * 2) 90)).2.1
        simpa [Nat.succ_le_succ_iff] using this
      · intro w hw
        rcases List.mem_cons.mp hw with rfl | hmem
        · exact min_le_right days 90
        · exact (ih (min (days * 2) 90)).2.2 w hmem

/-- Claim C6: under the no-data environment, for every starting window
length the run reports failure (success false, never a recursion past the
cap), every queried window length is at most the 90-day ceiling, and at most
_max_attempts = 4 queries are issued, so the widening always terminates.
Concretely, a start at the 90-day ceiling issues one query and fails without
recursing further, and a start at the default 30 days issues the doubled
windows 30, 60, 90 and then fails. -/
theorem c6_confirmed :
    (∀ days : ℤ,
      (get_ndvi_run days).2 = false ∧
      (get_ndvi_run days).1.length ≤ 4 ∧
      ∀ w ∈ (get_ndvi_run days).1, w ≤ 90) ∧
    get_ndvi_run 90 = ([90], false) ∧
    get_ndvi_run 30 = ([30, 60, 90], false) := by
  refine ⟨fun days => get_ndvi_no_data_bounds 4 days, ?_, ?_⟩
  · simp [get_ndvi_run, get_ndvi_no_data, min_def]
  · norm_num [get_ndvi_run, get_ndvi_no_data, min_def]

/-- C6 witness: the theorem applied at the concrete start 30; the window 60
queried on the second attempt respects the ceiling, and the run fails. -/
theorem c6_witness : (60 : ℤ) ≤ 90 ∧ (get_ndvi_run 30).2 = false := by
  constructor
  · refine (c6_confirmed.1 30).2.2 60 ?_
    rw [c6_confirmed.2.2]
    simp
  · exact (c6_confirmed.1 30).1

/-- Cached-credential state of SentinelNDVI: the fields _token and
_token_expires (sentinel_ndvi.py lines 27-28). Tokens are opaque, modelled
by naturals; timestamps by integers (minutes). -/
structure TokenState where
  token : Option ℕ
  expires : Option ℤ
deriving DecidableEq, Repr

/-- Outcome of the client-credentials exchange against oauth/token. -/
inductive ExchangeOutcome
| ok (tok : ℕ)
| httpError
| netError
deriving DecidableEq, Repr

/-- The network part of get_access_token (sentinel_ndvi.py lines 51-65): on
success the token is cached with expiry now + 50 minutes; on HTTPStatusError
or any other exception the method returns None before any assignment to
_token or _token_expires, so the state is unchanged. The third component
records that a network call happened. -/
def token_exchange (st : TokenState) (now : ℤ) :
    ExchangeOutcome → Option ℕ × TokenState × Bool
| .ok tok => (some tok, ⟨some tok, some (now + 50)⟩, true)
| .httpError => (none, st, true)
| .netError => (none, st, true)

/-- Embedding of SentinelNDVI.get_access_token (sentinel_ndvi.py lines
39-65; the copy in crop_analyzer.py lines 69-97 is the same on these paths):
if a token and an expiry are cached and now is before the expiry, the cached
token is returned with no network call; otherwise the exchange runs. -/
def get_access_token (st : TokenState) (now : ℤ) (ex : ExchangeOutcome) :
    Option ℕ × TokenState × Bool :=
  match st.token, st.expires with
  | some t, some e =>
      if now < e then (some t, st, false) else token_exchange st now ex
  | some _, none => token_exchange st now ex
  | none, _ => token_exchange st now ex

/-- Claim C7: with a cached, unexpired token the call returns the cached
token, makes no network call and leaves the state unchanged; and whenever
the exchange outcome is an HTTP or network error, the cached state is left
unchanged and, if a network call was made at all, the returned token is
None (the auth failure). -/
theorem c7_confirmed :
    (∀ (st : TokenState) (now : ℤ) (ex : ExchangeOutcome) (t : ℕ) (e : ℤ),
      st.token = some t → st.expires = some e → now < e →
      get_access_token st now ex = (some t, st, false)) ∧
    (∀ (st : TokenState) (now : ℤ) (ex : ExchangeOutcome),
      ex = .httpError ∨ ex = .netError →
      (get_access_token st now ex).2.1 = st ∧
      ((get_access_token st now ex).2.2 = true →
        (get_access_token st now ex).1 = none)) := by
  constructor
  · intro st now ex t e ht he hlt
    simp [get_access_token, ht, he, if_pos hlt]
  · intro st now ex hex
    rcases hex with rfl | rfl <;>
      cases htok : st.token <;> cases hexp : st.expires <;>
        simp [get_access_token, htok, hexp, token_exchange] <;>
        split_ifs <;> simp [token_exchange]

/-- C7 witness: the theorem applied at the concrete state holding token 7
expiring at time 100, queried at time 10, and at the empty state with a
failing exchange. -/
theorem c7_witness :
    get_access_token ⟨some 7, some 100⟩ 10 .httpError =
      (some 7, ⟨some 7, some 100⟩, false) ∧
    (get_access_token ⟨none, none⟩ 10 .netError).2.1 = ⟨none, none⟩ := by
  constructor
  · exact c7_confirmed.1 ⟨some 7, some 100⟩ 10 .httpError 7 100 rfl rfl
      (by decide)
  · exact (c7_confirmed.2 ⟨none, none⟩ 10 .netError (Or.inr rfl)).1

/-- Atomic events of the interleaved execution of several concurrent
get_access_token calls under asyncio, where code between awaits runs without
preemption. A check event is the synchronous prefix of one call: read the
cache and, if it holds no valid token, issue a token-exchange request (the
await on session.post, sentinel_ndvi.py line 52). A complete event is the
resumption after one outstanding exchange response: write the cache and
return (lines 54-59). The source takes no lock and shares no in-flight
request between callers. -/
inductive FlightEv
| check
| complete
deriving DecidableEq, Repr

/-- Shared state of the interleaving: the cached token, the number of
outstanding exchange requests, and the total number of token-exchange
network calls issued. -/
structure FlightState where
  cache : Option ℕ
  pending : ℕ
  calls : ℕ
deriving DecidableEq, Repr

def flight_step (s : FlightState) : FlightEv → FlightState
| .check =>
    match s.cache with
    | some _ => s
    | none => { s with pending := s.pending + 1, calls := s.calls + 1 }
| .complete =>
    match s.pending with
    | 0 => s
    | p + 1 => { cache := some 1, pending := p, calls := s.calls }

def flight_run : FlightState → List FlightEv → FlightState
| s, [] => s
| s, e :: es => flight_run (flight_step s e) es

def flight_init : FlightState := ⟨none, 0, 0⟩

/-- The schedule in which all n callers run their cache check before any
exchange response arrives. -/
def all_checks_first (n : ℕ) : List FlightEv :=
  List.replicate n .check ++ List.replicate n .complete

theorem flight_run_append (s : FlightState) (l1 l2 : List FlightEv) :
    flight_run s (l1 ++ l2) = flight_run (flight_run s l1) l2 := by
  induction l1 generalizing s with
  | nil => rfl
  | cons e es ih => simp [flight_run, ih]

theorem flight_run_checks_empty (n : ℕ) :
    ∀ p c : ℕ, flight_run ⟨none, p, c⟩ (List.replicate n .check) =
      ⟨none, p + n, c + n⟩ := by
  induction n with
  | zero => intro p c; simp [flight_run]
  | succ n ih =>
    intro p c
    rw [List.replicate_succ]
    show flight_run (flight_step ⟨none, p, c⟩ .check)
      (List.replicate n .check) = ⟨none, p + (n + 1), c + (n + 1)⟩
    rw [show flight_step ⟨none, p, c⟩ .check =
      (⟨none, p + 1, c + 1⟩ : FlightState) from rfl]
    rw [ih (p + 1) (c + 1)]
    simp [FlightState.mk.injEq]
    omega

theorem flight_run_completes_calls (l : List FlightEv)
    (hl : ∀ e ∈ l, e = FlightEv.complete) :
    ∀ s : FlightState, (flight_run s l).calls = s.calls := by
  induction l with
  | nil => intro s; rfl
  | cons e es ih =>
    intro s
    have he : e = FlightEv.complete := hl e (List.mem_cons_self e es)
    subst he
    show (flight_run (flight_step s .complete) es).calls = s.calls
    rw [ih (fun e he' => hl e (List.mem_cons_of_mem _ he'))]
    cases hp : s.pending <;> simp [flight_step, hp]

theorem flight_run_checks_cached (n : ℕ) (t p c : ℕ) :
    flight_run ⟨some t, p, c⟩ (List.replicate n .check) = ⟨some t, p, c⟩ := by
  induction n with
  | zero => rfl
  | succ n ih =>
    rw [List.replicate_succ]
    show flight_run (flight_step ⟨some t, p, c⟩ .check)
      (List.replicate n .check) = ⟨some t, p, c⟩
    exact ih

/-- C9 counterexample: two concurrent calls that both check the empty cache
before either exchange completes issue two token-exchange network calls,
not the exactly one the claim requires. -/
theorem c9_counterexample :
    (flight_run flight_init
        [FlightEv.check, FlightEv.check,
         FlightEv.complete, FlightEv.complete]).calls = 2 ∧
    (2 : ℕ) ≠ 1 := by
  exact ⟨rfl, by decide⟩

/-- Claim C9 (amended): the implementation has no single-flight gate: every
caller that observes an empty cache issues its own exchange, so under the
schedule in which all n callers check before any response arrives exactly n
network calls are made; only a caller that checks after some exchange has
completed reuses the cached token, as in the sequential schedule where one
call completes first and the n later callers make no further network
call. -/
theorem c9_amended (n : ℕ) :
    (flight_run flight_init (all_checks_first n)).calls = n ∧
    (flight_run flight_init
        (FlightEv.check :: FlightEv.complete ::
          List.replicate n FlightEv.check)).calls = 1 := by
  constructor
  · rw [all_checks_first, flight_run_append]
    rw [show flight_init = (⟨none, 0, 0⟩ : FlightState) from rfl]
    rw [flight_run_checks_empty n 0 0]
    rw [flight_run_completes_calls _
      (fun e he => List.eq_of_mem_replicate he)]
    show 0 + n = n
    omega
  · show (flight_run
      (flight_step (flight_step flight_init .check) .complete)
      (List.replicate n .check)).calls = 1
    rw [show flight_step (flight_step flight_init .check) .complete =
      (⟨some 1, 0, 1⟩ : FlightState) from rfl]
    rw [flight_run_checks_cached]

/-- Tier of the provider chain that produced a result. -/
inductive SourceTier
| primary
| secondary
| estimate
deriving DecidableEq, Repr

/-- The one result shape of the pipeline: value with synthesized or measured
bounds, the originating tier and the derived status. -/
structure IndexResult where
  value : ℚ
  min : ℚ
  max : ℚ
  tier : SourceTier
  status : NdviStatus
deriving DecidableEq, Repr

/-- Clamping into [0, 1]. -/
def clamp01 (x : ℚ) : ℚ := max 0 (min x 1)

/-- Modelled from the spec: the terminal Smart Estimate tier of
analyze_ndvi_only. The revision of CropAnalyzer.analyze_ndvi_only that
main.py line 386 invokes (with a bbox keyword) and that test_ndvi_real.py
exercises, checking for Smart Estimate in the summary, is not under src/;
src/ holds only its callers, its test and an older revision without this
tier. Per spec section 4.5 the estimate derives a base value from recent
precipitation and temperature history, or from the calendar season when the
climate API is unreachable, adds bounded random jitter, clamps the result
into [0, 1], synthesizes min and max as the value plus or minus a fixed
spread, tags the result as an estimate and never fails outward. The base
value chosen by the rule table and the drawn jitter are the inputs. -/
def smart_estimate (base jitter : ℚ) : IndexResult :=
  let v := clamp01 (base + jitter)
  ⟨v, v - 1/10, v + 1/10, .estimate, interpret_ndvi v⟩

/-- Modelled from the spec: the orchestration of analyze_ndvi_only (spec
section 4.6, same missing revision): the primary tier result if it
succeeded, else the secondary tier result if it succeeded, else the Smart
Estimate, which is total. -/
def analyze_ndvi_only (primary secondary : Option IndexResult)
    (base jitter : ℚ) : IndexResult :=
  match primary with
  | some r => r
  | none =>
    match secondary with
    | some r => r
    | none => smart_estimate base jitter

/-- Claim C2: when both the primary and the secondary provider fail, the
pipeline still returns a result (the function is total, so a result is
always present), that result is tagged as an estimate, and its value is
clamped into [0, 1]; the estimate stage itself never fails outward,
whatever base value and jitter feed it. -/
theorem c2_confirmed (base jitter : ℚ) :
    (analyze_ndvi_only none none base jitter).tier = SourceTier.estimate ∧
    0 ≤ (analyze_ndvi_only none none base jitter).value ∧
    (analyze_ndvi_only none none base jitter).value ≤ 1 := by
  refine ⟨rfl, ?_, ?_⟩
  · show (0 : ℚ) ≤ clamp01 (base + jitter)
    exact le_max_left 0 _
  · show clamp01 (base + jitter) ≤ 1
    exact max_le (by norm_num) (min_le_right _ 1)

/-- Magnitude fix of FieldsManager.parse_polygon_coordinates
(fields_manager.py lines 102-106): a latitude of absolute value above 90 is
divided by 1000000 once. -/
def fixLat (x : ℚ) : ℚ := if 90 < |x| then x / 1000000 else x

/-- Same fix for longitudes, threshold 180. -/
def fixLon (x : ℚ) : ℚ := if 180 < |x| then x / 1000000 else x

/-- Embedding of FieldsManager.parse_polygon_coordinates (fields_manager.py
lines 52-113), applied to the list of numbers found in the text in order
(the character cleanup and float conversion producing that list are the
string layer): fewer than eight numbers yield None (line 92); otherwise
exactly the first eight numbers are paired as (lat, lon) with the magnitude
fix applied to each, any further numbers are ignored (line 95), and the four
pairs are returned. -/
def parse_polygon_coordinates : List ℚ → Option (List (ℚ × ℚ))
| a :: b :: c :: d :: e :: f :: g :: h :: _ =>
    some [(fixLat a, fixLon b), (fixLat c, fixLon d),
          (fixLat e, fixLon f), (fixLat g, fixLon h)]
| _ => none

/-- Claim C10: the parser returns None or exactly four pairs; the pairs are
built from the first eight numbers only, with any further numbers silently
ignored; the pairs are the magnitude-fixed (lat, lon) of those eight
numbers; and the fix divides by 1000000 instead of rejecting, so the result
is not guaranteed in range: the input starting with 1000000000 yields the
latitude 1000, still outside [-90, 90]. -/
theorem c10_confirmed :
    (∀ ns : List ℚ,
      parse_polygon_coordinates ns = none ∨
      ∃ ps, parse_polygon_coordinates ns = some ps ∧ ps.length = 4) ∧
    (∀ (ns extra : List ℚ), 8 ≤ ns.length →
      parse_polygon_coordinates (ns ++ extra) =
        parse_polygon_coordinates ns) ∧
    (∀ a b c d e f g h : ℚ,
      parse_polygon_coordinates [a, b, c, d, e, f, g, h] =
        some [(fixLat a, fixLon b), (fixLat c, fixLon d),
              (fixLat e, fixLon f), (fixLat g, fixLon h)]) ∧
    (parse_polygon_coordinates [1000000000, 0, 0, 0, 0, 0, 0, 0] =
        some [((1000 : ℚ), 0), (0, 0), (0, 0), (0, 0)] ∧
      ¬ ((1000 : ℚ) ≤ 90)) := by
  refine ⟨?_, ?_, ?_, ?_, ?_⟩
  · intro ns
    rcases ns with _ | ⟨a, _ | ⟨b, _ | ⟨c, _ | ⟨d, _ | ⟨e, _ | ⟨f,
      _ | ⟨g, _ | ⟨h, rest⟩⟩⟩⟩⟩⟩⟩⟩
    · exact Or.inl rfl
    · exact Or.inl rfl
    · exact Or.inl rfl
    · exact Or.inl rfl
    · exact Or.inl rfl
    · exact Or.inl rfl
    · exact Or.inl rfl
    · exact Or.inl rfl
    · exact Or.inr ⟨_, rfl, rfl⟩
  · intro ns extra hlen
    rcases ns with _ | ⟨a, _ | ⟨b, _ | ⟨c, _ | ⟨d, _ | ⟨e, _ | ⟨f,
      _ | ⟨g, _ | ⟨h, rest⟩⟩⟩⟩⟩⟩⟩⟩ <;>
      simp only [List.length] at hlen <;> try omega
    rfl
  · intro a b c d e f g h
    rfl
  · have habs : (90 : ℚ) < |1000000000| := by
      rw [abs_of_nonneg (by norm_num)]
      norm_num
    have hz : ¬ ((90 : ℚ) < |0|) := by
      rw [abs_zero]
      norm_num
    have hz' : ¬ ((180 : ℚ) < |0|) := by
      rw [abs_zero]
      norm_num
    rw [parse_polygon_coordinates]
    simp only [fixLat, fixLon, if_pos habs, if_neg hz, if_neg hz']
    norm_num
  · norm_num

/-- C3 witness: the amended theorem applied to the concrete six-number
polygon 91 0 91 0 88 0: the vertex latitude 91 is out of range, yet the
center latitude is (91 + 91 + 88) / 3 = 90, in range, so resolution does
not fail. -/
theorem c3_witness :
    process_ndvi_coordinates [91, 0, 91, 0, 88, 0] ≠ GeomResult.invalid := by
  intro h
  have hiff := (c3_amended.2.2.1 [91, 0, 91, 0, 88, 0]
    (by decide) (by decide)).mp h
  apply hiff
  refine ⟨?_, ?_, ?_, ?_⟩ <;>
    norm_num [evens, odds, listMeanQ, List.sum_cons, List.sum_nil,
      List.length_cons, List.length_nil]

/-- C10 witness: the theorem applied to a concrete ten-number input; the
numbers beyond the first eight are ignored. -/
theorem c10_witness :
    parse_polygon_coordinates ([1, 2, 3, 4, 5, 6, 7, 8] ++ [9, 10]) =
      parse_polygon_coordinates [1, 2, 3, 4, 5, 6, 7, 8] :=
  c10_confirmed.2.1 [1, 2, 3, 4, 5, 6, 7, 8] [9, 10] (by decide)
